import Mathlib

/-!
Verification development for the issacc component-lending tracker.

The TypeScript data layer (src/services/dataService.ts,
src/services/hybridDataService.ts, src/services/firebaseService.ts,
src/context/AuthContext.tsx) is shallowly embedded below:

* `localStorage` is modelled by the `Storage` record, holding the optional
  persisted `SystemData` snapshot, the email-to-password credential map and
  the last-sync marker.
* Timestamps are modelled as `Int` milliseconds; the source stores ISO
  strings and converts with `Date`, a bijection we elide.  Each operation
  that reads the wall clock in the source takes an explicit `now : Int`
  (or an `Env` carrying `now`, the session-id random suffix and the
  user agent).
* Remote (Firebase) calls are modelled by a `RemoteResult` outcome
  parameter: the adapter either returns a value or throws.  The facade's
  `try`/`catch` blocks are embedded in the `Except Unit` monad.
-/

namespace Issac

/-- JavaScript `x || d` on an optional string: `undefined` and `""` are
falsy, so both fall through to the default. -/
def jsOrString (v : Option String) (d : String) : String :=
  match v with
  | none => d
  | some s => if s = "" then d else s

/-- JavaScript `s.includes t` (used for the user-agent sniffing): `t`
occurs as a substring of `s`. -/
def containsStr (s t : String) : Bool :=
  (s.splitOn t).length > 1

/-- The `User` record from `src/types` (reconstructed from its uses: the types
module is not part of the provided sources).  `loginCount` and
`lastLoginAt` may be absent on legacy records, hence `Option`. -/
structure User where
  id : String
  name : String
  email : String
  role : String
  rollNo : Option String := none
  mobile : Option String := none
  registeredAt : Int
  lastLoginAt : Option Int := none
  loginCount : Option Nat := none
  isActive : Bool
deriving Repr, DecidableEq

structure Component where
  id : String
  name : String
  totalQuantity : Nat
  availableQuantity : Nat
  category : String
  description : String
deriving Repr, DecidableEq

structure BorrowRequest where
  id : String
  studentId : String
  componentId : String
  status : String
  dueDate : Int
  createdAt : Int
deriving Repr, DecidableEq

structure Notification where
  id : String
  userId : String
  title : String
  message : String
  type : String
  read : Bool
  createdAt : Int
deriving Repr, DecidableEq

structure LoginSession where
  id : String
  userId : String
  userEmail : String
  userName : String
  userRole : String
  loginTime : Int
  logoutTime : Option Int := none
  sessionDuration : Option Int := none
  ipAddress : String
  userAgent : String
  deviceInfo : String
  isActive : Bool
deriving Repr, DecidableEq

/-- The aggregate snapshot serialized to the `isaacLabData` slot. -/
structure SystemData where
  users : List User
  components : List Component
  requests : List BorrowRequest
  notifications : List Notification
  loginSessions : List LoginSession
deriving Repr, DecidableEq

structure SystemStats where
  totalUsers : Nat
  activeUsers : Nat
  totalLogins : Nat
  onlineUsers : Nat
  totalRequests : Nat
  pendingRequests : Nat
  totalComponents : Nat
  overdueItems : Nat
deriving Repr, DecidableEq

/-- The browser `localStorage` slots the data layer uses: the snapshot
(`isaacLabData`, `none` when absent or unparsable), the credential map
(`isaacLabPasswords`, `[]` when absent) and the `lastFirebaseSync`
marker. -/
structure Storage where
  data : Option SystemData
  passwords : List (String × String)
  lastSync : Option Int := none
deriving Repr, DecidableEq

/-- Ambient values the source reads from the host environment during one
call: the clock, the random session-id suffix and `navigator.userAgent`. -/
structure Env where
  now : Int
  rand : String
  userAgent : String
deriving Repr, DecidableEq

namespace DataService

/-- Embedding of `DataService.getDefaultData`: the built-in dataset (one seeded admin
user, one seeded component); `registeredAt` is stamped with the clock. -/
def getDefaultData (now : Int) : SystemData :=
  { users := [
      { id := "admin-1"
        name := "Administrator"
        email := "admin@issacasimov.in"
        role := "admin"
        registeredAt := now
        loginCount := some 0
        isActive := false }]
    components := [
      { id := "comp-1"
        name := "Arduino Uno R3"
        totalQuantity := 25
        availableQuantity := 25
        category := "Microcontroller"
        description := "Arduino Uno R3 development board" }]
    requests := []
    notifications := []
    loginSessions := [] }

/-- Embedding of `DataService.getData`: parse the stored snapshot, falling back to the
default dataset when the slot is absent or fails to parse.  (The source's
backward-compatibility repair of a missing `loginSessions` field is a
JSON-level concern subsumed by the typed snapshot.) -/
def getData (now : Int) (s : Storage) : SystemData :=
  (s.data).getD (getDefaultData now)

/-- Embedding of `DataService.saveData`: overwrite the persisted snapshot. -/
def saveData (d : SystemData) (s : Storage) : Storage :=
  { s with data := some d }

/-- JS object-key assignment `passwords[email] = password`: replace the
binding in place, or append a fresh one. -/
def pwInsert : List (String × String) → String → String → List (String × String)
  | [], e, p => [(e, p)]
  | (k, v) :: rest, e, p =>
      if k = e then (k, p) :: rest else (k, v) :: pwInsert rest e p

def getUserPasswords (s : Storage) : List (String × String) :=
  s.passwords

def setUserPassword (email password : String) (s : Storage) : Storage :=
  { s with passwords := pwInsert (getUserPasswords s) email password }

/-- Embedding of `DataService.verifyPassword`: strict equality with the stored entry
(`undefined === p` is `false`). -/
def verifyPassword (email password : String) (s : Storage) : Bool :=
  decide (List.lookup email (getUserPasswords s) = some password)

/-- Embedding detail: `DataService.addUser` resets `loginCount` and `isActive` on the passed
object before pushing it (the TS mutates the caller's object in place). -/
def addUserFix (u : User) : User :=
  { u with loginCount := some 0, isActive := false }

def addUser (u : User) (now : Int) (s : Storage) : Storage :=
  let d := getData now s
  saveData { d with users := d.users ++ [addUserFix u] } s

/-- Embedding of `DataService.updateUser`: replace the user at the `findIndex` position;
when the id is absent nothing is written. -/
def updateUser (u : User) (now : Int) (s : Storage) : Storage :=
  match (getData now s).users.findIdx? (fun v => v.id == u.id) with
  | some i =>
      saveData { getData now s with users := (getData now s).users.set i u } s
  | none => s

def getUser (email : String) (now : Int) (s : Storage) : Option User :=
  (getData now s).users.find? (fun u => u.email == email)

def getClientIP : String := "Unknown"

def getDeviceInfo (ua : String) : String :=
  if containsStr ua "Mobile" then "Mobile Device"
  else if containsStr ua "Tablet" then "Tablet"
  else "Desktop"

/-- The session record `DataService.createLoginSession` constructs. -/
def mkSession (u : User) (env : Env) : LoginSession :=
  { id := "session-" ++ toString env.now ++ "-" ++ env.rand
    userId := u.id
    userEmail := u.email
    userName := u.name
    userRole := u.role
    loginTime := env.now
    ipAddress := getClientIP
    userAgent := env.userAgent
    deviceInfo := getDeviceInfo env.userAgent
    isActive := true }

def createLoginSession (u : User) (env : Env) (s : Storage) : LoginSession × Storage :=
  let session := mkSession u env
  let d := getData env.now s
  (session, saveData { d with loginSessions := d.loginSessions ++ [session] } s)

/-- The in-place mutation `endLoginSession` applies to each still-active
session of the user. -/
def closeSession (uid : String) (now : Int) (t : LoginSession) : LoginSession :=
  if t.userId == uid && t.isActive then
    { t with logoutTime := some now
             isActive := false
             sessionDuration := some (now - t.loginTime) }
  else t

/-- The source `data.users.find(u => u.id === userId)` returns the first match, which
is then mutated in place: only the first matching user is deactivated. -/
def setFirstUserInactive : List User → String → List User
  | [], _ => []
  | u :: rest, uid =>
      if u.id == uid then { u with isActive := false } :: rest
      else u :: setFirstUserInactive rest uid

def endLoginSession (uid : String) (now : Int) (s : Storage) : Storage :=
  let d := getData now s
  saveData { d with loginSessions := d.loginSessions.map (closeSession uid now)
                    users := setFirstUserInactive d.users uid } s

def getLoginSessions (now : Int) (s : Storage) : List LoginSession :=
  (getData now s).loginSessions

def getActiveUsers (now : Int) (s : Storage) : List User :=
  (getData now s).users.filter (fun u => u.isActive)

/-- The shared tail of `authenticateUser`: bump the login statistics,
persist the user, create the login session, return the user. -/
def loginBump (u : User) (now : Int) : User :=
  { u with lastLoginAt := some now
           loginCount := some (u.loginCount.getD 0 + 1)
           isActive := true }

def finishLogin (u : User) (env : Env) (s : Storage) : Option User × Storage :=
  let u1 := loginBump u env.now
  let s1 := updateUser u1 env.now s
  let s2 := (createLoginSession u1 env s1).2
  (some u1, s2)

/-- The admin record `authenticateUser` constructs when no user exists for
the administrative email. -/
def mkAdminUser (now : Int) : User :=
  { id := "admin-1"
    name := "Administrator"
    email := "admin@issacasimov.in"
    role := "admin"
    registeredAt := now
    loginCount := some 0
    isActive := true }

/-- Embedding of `DataService.authenticateUser`.  For the administrative email the
stored credential falls back to the default `"ralab"` via JS `||`; when no
user record exists, the admin user is created and the default credential
persisted (the object passed to `addUser` is mutated in place, modelled by
`addUserFix`).  Regular users must exist and match their stored
credential. -/
def authenticateUser (email password : String) (env : Env) (s : Storage) :
    Option User × Storage :=
  let user0 := getUser email env.now s
  if email == "admin@issacasimov.in" then
    let adminPassword := jsOrString (List.lookup email (getUserPasswords s)) "ralab"
    if password != adminPassword then (none, s)
    else
      match user0 with
      | some u => finishLogin u env s
      | none =>
          let u := mkAdminUser env.now
          let s1 := addUser u env.now s
          let s2 := setUserPassword email "ralab" s1
          finishLogin (addUserFix u) env s2
  else
    match user0 with
    | none => (none, s)
    | some u =>
        if verifyPassword email password s then finishLogin u env s
        else (none, s)

-- Component operations
def getComponents (now : Int) (s : Storage) : List Component :=
  (getData now s).components

def updateComponent (c : Component) (now : Int) (s : Storage) : Storage :=
  match (getData now s).components.findIdx? (fun v => v.id == c.id) with
  | some i =>
      saveData { getData now s with components := (getData now s).components.set i c } s
  | none => s

def addComponent (c : Component) (now : Int) (s : Storage) : Storage :=
  let d := getData now s
  saveData { d with components := d.components ++ [c] } s

def deleteComponent (cid : String) (now : Int) (s : Storage) : Storage :=
  let d := getData now s
  saveData { d with components := d.components.filter (fun c => !(c.id == cid)) } s

-- Request operations
def addRequest (r : BorrowRequest) (now : Int) (s : Storage) : Storage :=
  let d := getData now s
  saveData { d with requests := d.requests ++ [r] } s

def updateRequest (r : BorrowRequest) (now : Int) (s : Storage) : Storage :=
  match (getData now s).requests.findIdx? (fun v => v.id == r.id) with
  | some i =>
      saveData { getData now s with requests := (getData now s).requests.set i r } s
  | none => s

def getRequests (now : Int) (s : Storage) : List BorrowRequest :=
  (getData now s).requests

def getUserRequests (uid : String) (now : Int) (s : Storage) : List BorrowRequest :=
  (getData now s).requests.filter (fun r => r.studentId == uid)

-- Notification operations
def addNotification (n : Notification) (now : Int) (s : Storage) : Storage :=
  let d := getData now s
  saveData { d with notifications := d.notifications ++ [n] } s

def getUserNotifications (uid : String) (now : Int) (s : Storage) : List Notification :=
  (getData now s).notifications.filter (fun n => n.userId == uid)

/-- The source `find` returns the first match, mutated in place; the snapshot is saved
only when a notification with the id exists. -/
def markFirstRead : List Notification → String → List Notification
  | [], _ => []
  | n :: rest, nid =>
      if n.id == nid then { n with read := true } :: rest
      else n :: markFirstRead rest nid

def markNotificationAsRead (nid : String) (now : Int) (s : Storage) : Storage :=
  match (getData now s).notifications.find? (fun n => n.id == nid) with
  | some _ =>
      saveData { getData now s with
                 notifications := markFirstRead (getData now s).notifications nid } s
  | none => s

def getSystemStats (now : Int) (s : Storage) : SystemStats :=
  let d := getData now s
  let overdue := d.requests.filter
    (fun r => r.status == "approved" && decide (r.dueDate < now))
  { totalUsers := d.users.length
    activeUsers := (d.users.filter (fun u => u.isActive)).length
    totalLogins := d.users.foldl (fun acc u => acc + u.loginCount.getD 0) 0
    onlineUsers := (d.loginSessions.filter (fun t => t.isActive)).length
    totalRequests := d.requests.length
    pendingRequests := (d.requests.filter (fun r => r.status == "pending")).length
    totalComponents := d.components.length
    overdueItems := overdue.length }

/-- JS `Math.round (d / 60000)` over milliseconds: floor of `d/60000 + 1/2`
(JS rounds half toward positive infinity). -/
def roundMinutes (d : Int) : Int :=
  Int.fdiv (2 * d + 60000) 120000

/-- Model of `new Date(t).toLocaleString()`: an injective locale-dependent
rendering of the timestamp, containing neither newline nor comma. -/
def toLocaleString (t : Int) : String :=
  toString t

def csvHeaders : List String :=
  ["Login Time", "Logout Time", "User Name", "User Email", "Role",
   "Device Info", "Session Duration (minutes)", "Status"]

/-- The cell list of one exported session row.  JS truthiness: a missing
`logoutTime` renders as `Active`; a missing or zero `sessionDuration`
renders as `Active`; an empty `deviceInfo` renders as `Unknown`. -/
def csvRow (t : LoginSession) : List String :=
  [toLocaleString t.loginTime,
   match t.logoutTime with
   | some l => toLocaleString l
   | none => "Active",
   t.userName,
   t.userEmail,
   t.userRole,
   (if t.deviceInfo = "" then "Unknown" else t.deviceInfo),
   match t.sessionDuration with
   | some d => if d = 0 then "Active" else toString (roundMinutes d)
   | none => "Active",
   if t.isActive then "Active" else "Ended"]

/-- Quote every cell and join with commas. -/
def renderCSVRow (row : List String) : String :=
  String.intercalate "," (row.map (fun c => "\x22" ++ c ++ "\x22"))

/-- The rendered lines: the header row followed by one row per session. -/
def csvLines (now : Int) (s : Storage) : List String :=
  (csvHeaders :: (getData now s).loginSessions.map csvRow).map renderCSVRow

def exportLoginSessionsCSV (now : Int) (s : Storage) : String :=
  String.intercalate "\n" (csvLines now s)

end DataService

/-- Outcome of one remote (Firebase) call: a returned value, or a thrown
failure. -/
inductive RemoteResult (α : Type) where
  | ok (a : α)
  | err
deriving Repr, DecidableEq

namespace HybridDataService

open DataService

/-- The id the entity carries when the local write happens: when the facade
is online with Firebase enabled and the remote create succeeded, the
returned Firebase id is assigned onto the object; otherwise the original id
is kept (on a thrown failure the assignment is never reached). -/
def assignRemoteId (online fb : Bool) (r : RemoteResult String) (i : String) : String :=
  if online && fb then
    match r with
    | .ok fid => fid
    | .err => i
  else i

/-- Embedding of `HybridDataService.addUser`: attempt the remote create, assign the
remote id on success, then write locally; a thrown remote failure is caught
and the local write still happens. -/
def addUser (online fb : Bool) (r : RemoteResult String) (u : User) (now : Int)
    (s : Storage) : Except Unit Storage :=
  match (do
    let u1 ←
      (if online && fb then
        match r with
        | .ok fid => pure { u with id := fid }
        | .err => throw ()
      else pure u : Except Unit User)
    pure (DataService.addUser u1 now s) : Except Unit Storage) with
  | .ok s1 => .ok s1
  | .error _ => .ok (DataService.addUser u now s)

def updateUser (online fb : Bool) (r : RemoteResult Unit) (u : User) (now : Int)
    (s : Storage) : Except Unit Storage :=
  match (do
    (if online && fb then
      match r with
      | .ok _ => pure ()
      | .err => throw ()
    else pure () : Except Unit Unit)
    pure (DataService.updateUser u now s) : Except Unit Storage) with
  | .ok s1 => .ok s1
  | .error _ => .ok (DataService.updateUser u now s)

/-- Embedding of `HybridDataService.getUser`: a truthy remote result is returned as-is;
a `null` result or a thrown failure falls back to the local store. -/
def getUser (online fb : Bool) (r : RemoteResult (Option User)) (email : String)
    (now : Int) (s : Storage) : Option User :=
  if online && fb then
    match r with
    | .ok (some u) => some u
    | .ok none => DataService.getUser email now s
    | .err => DataService.getUser email now s
  else DataService.getUser email now s

def getComponents (online fb : Bool) (r : RemoteResult (List Component))
    (now : Int) (s : Storage) : List Component :=
  if online && fb then
    match r with
    | .ok l => if 0 < l.length then l else DataService.getComponents now s
    | .err => DataService.getComponents now s
  else DataService.getComponents now s

def updateComponent (online fb : Bool) (r : RemoteResult Unit) (c : Component)
    (now : Int) (s : Storage) : Except Unit Storage :=
  match (do
    (if online && fb then
      match r with
      | .ok _ => pure ()
      | .err => throw ()
    else pure () : Except Unit Unit)
    pure (DataService.updateComponent c now s) : Except Unit Storage) with
  | .ok s1 => .ok s1
  | .error _ => .ok (DataService.updateComponent c now s)

def addComponent (online fb : Bool) (r : RemoteResult String) (c : Component)
    (now : Int) (s : Storage) : Except Unit Storage :=
  match (do
    let c1 ←
      (if online && fb then
        match r with
        | .ok fid => pure { c with id := fid }
        | .err => throw ()
      else pure c : Except Unit Component)
    pure (DataService.addComponent c1 now s) : Except Unit Storage) with
  | .ok s1 => .ok s1
  | .error _ => .ok (DataService.addComponent c now s)

def addRequest (online fb : Bool) (r : RemoteResult String) (rq : BorrowRequest)
    (now : Int) (s : Storage) : Except Unit Storage :=
  match (do
    let r1 ←
      (if online && fb then
        match r with
        | .ok fid => pure { rq with id := fid }
        | .err => throw ()
      else pure rq : Except Unit BorrowRequest)
    pure (DataService.addRequest r1 now s) : Except Unit Storage) with
  | .ok s1 => .ok s1
  | .error _ => .ok (DataService.addRequest rq now s)

def updateRequest (online fb : Bool) (r : RemoteResult Unit) (rq : BorrowRequest)
    (now : Int) (s : Storage) : Except Unit Storage :=
  match (do
    (if online && fb then
      match r with
      | .ok _ => pure ()
      | .err => throw ()
    else pure () : Except Unit Unit)
    pure (DataService.updateRequest rq now s) : Except Unit Storage) with
  | .ok s1 => .ok s1
  | .error _ => .ok (DataService.updateRequest rq now s)

def getRequests (online fb : Bool) (r : RemoteResult (List BorrowRequest))
    (now : Int) (s : Storage) : List BorrowRequest :=
  if online && fb then
    match r with
    | .ok l => if 0 < l.length then l else DataService.getRequests now s
    | .err => DataService.getRequests now s
  else DataService.getRequests now s

def getUserRequests (online fb : Bool) (r : RemoteResult (List BorrowRequest))
    (uid : String) (now : Int) (s : Storage) : List BorrowRequest :=
  if online && fb then
    match r with
    | .ok l => if 0 < l.length then l else DataService.getUserRequests uid now s
    | .err => DataService.getUserRequests uid now s
  else DataService.getUserRequests uid now s

def addNotification (online fb : Bool) (r : RemoteResult String) (n : Notification)
    (now : Int) (s : Storage) : Except Unit Storage :=
  match (do
    let n1 ←
      (if online && fb then
        match r with
        | .ok fid => pure { n with id := fid }
        | .err => throw ()
      else pure n : Except Unit Notification)
    pure (DataService.addNotification n1 now s) : Except Unit Storage) with
  | .ok s1 => .ok s1
  | .error _ => .ok (DataService.addNotification n now s)

def getUserNotifications (online fb : Bool) (r : RemoteResult (List Notification))
    (uid : String) (now : Int) (s : Storage) : List Notification :=
  if online && fb then
    match r with
    | .ok l => if 0 < l.length then l else DataService.getUserNotifications uid now s
    | .err => DataService.getUserNotifications uid now s
  else DataService.getUserNotifications uid now s

def markNotificationAsRead (online fb : Bool) (r : RemoteResult Unit) (nid : String)
    (now : Int) (s : Storage) : Except Unit Storage :=
  match (do
    (if online && fb then
      match r with
      | .ok _ => pure ()
      | .err => throw ()
    else pure () : Except Unit Unit)
    pure (DataService.markNotificationAsRead nid now s) : Except Unit Storage) with
  | .ok s1 => .ok s1
  | .error _ => .ok (DataService.markNotificationAsRead nid now s)

/-- Embedding of `HybridDataService.createLoginSession`: the local session is created
first; the remote create is then attempted and, on success, its id is
assigned onto the returned session object (the already-persisted local copy
keeps the local id). -/
def createLoginSession (online fb : Bool) (r : RemoteResult String) (u : User)
    (env : Env) (s : Storage) : Except Unit (LoginSession × Storage) :=
  let p := DataService.createLoginSession u env s
  match (do
    let sess ←
      (if online && fb then
        match r with
        | .ok fid => pure { p.1 with id := fid }
        | .err => throw ()
      else pure p.1 : Except Unit LoginSession)
    pure (sess, p.2) : Except Unit (LoginSession × Storage)) with
  | .ok q => .ok q
  | .error _ => .ok (p.1, p.2)

/-- Embedding of `HybridDataService.endLoginSession`: list the remote sessions and close
the user's active ones remotely (each remote step may throw, with no local
effect), then close them locally; any thrown failure is caught and the
local close still happens. -/
def endLoginSession (online fb : Bool) (r : RemoteResult (List LoginSession))
    (updFails : Bool) (uid : String) (now : Int) (s : Storage) : Except Unit Storage :=
  match (do
    (if online && fb then
      match r with
      | .err => throw ()
      | .ok sessions =>
          let userSessions := sessions.filter (fun t => t.userId == uid && t.isActive)
          if updFails && !userSessions.isEmpty then throw () else pure ()
    else pure () : Except Unit Unit)
    pure (DataService.endLoginSession uid now s) : Except Unit Storage) with
  | .ok s1 => .ok s1
  | .error _ => .ok (DataService.endLoginSession uid now s)

end HybridDataService

/-- The per-call remote outcomes the registration flow can encounter. -/
structure RemoteEnv where
  online : Bool
  fb : Bool
  getUserR : RemoteResult (Option User)
  addUserR : RemoteResult String
  sessionR : RemoteResult String
  notifR : RemoteResult String
deriving Repr, DecidableEq

/-- The form data `AuthContext.register` receives. -/
structure RegisterData where
  name : String
  email : String
  rollNumber : String
  mobile : String
  password : String
deriving Repr, DecidableEq

/-- Embedding of `AuthProvider.register` (src/context/AuthContext.tsx): duplicate check
through the hybrid facade, best-effort remote sign-up (failure tolerated),
construction of the new student record, hybrid persistence of user, login
session, credential and welcome notification.  The outer `try` returns
`false` on any escaped error. -/
def register (renv : RemoteEnv) (env : Env) (rd : RegisterData) (s : Storage) :
    Bool × Storage :=
  match (do
    match HybridDataService.getUser renv.online renv.fb renv.getUserR rd.email env.now s with
    | some _ => pure (false, s)
    | none =>
        -- firebaseService.signUp: failure logged and tolerated, no local effect
        let newUser : User := {
          id := "user-" ++ toString env.now
          name := rd.name
          email := rd.email
          rollNo := some rd.rollNumber
          mobile := some rd.mobile
          role := "student"
          registeredAt := env.now
          loginCount := some 1
          isActive := true
          lastLoginAt := some env.now }
        let s1 ← HybridDataService.addUser renv.online renv.fb renv.addUserR newUser env.now s
        -- the facade mutates newUser.id in place on remote success
        let newUser1 := { newUser with
          id := HybridDataService.assignRemoteId renv.online renv.fb renv.addUserR newUser.id }
        let q ← HybridDataService.createLoginSession renv.online renv.fb renv.sessionR newUser1 env s1
        let s3 := DataService.setUserPassword rd.email rd.password q.2
        let notif : Notification := {
          id := "notif-" ++ toString env.now
          userId := newUser1.id
          title := "Welcome to Isaac Asimov Lab!"
          message := "Your account has been created successfully. You can now request components for your robotics projects."
          type := "success"
          read := false
          createdAt := env.now }
        let s4 ← HybridDataService.addNotification renv.online renv.fb renv.notifR notif env.now s3
        pure (true, s4) : Except Unit (Bool × Storage)) with
  | .ok p => p
  | .error _ => (false, s)

/-- The flag/connectivity state of the hybrid facade plus the local
storage it governs. -/
structure FacadeState where
  isOnline : Bool
  useFirebase : Bool
  store : Storage

/-- Embedding of `firebaseService.syncToLocal`: replace the local snapshot with the
remote collections and stamp the sync marker; a failure propagates. -/
def syncToLocal (fails : Bool) (rd : SystemData) (now : Int) (s : Storage) :
    Except Unit Storage :=
  if fails then .error () else .ok { s with data := some rd, lastSync := some now }

/-- Embedding of `HybridDataService.initializeFirebase`: when online, attempt the remote
seed plus full sync; any failure (seed or sync, folded into `fails`) is
caught and permanently disables Firebase for the process. -/
def initFirebase (fails : Bool) (rd : SystemData) (now : Int) (st : FacadeState) :
    FacadeState :=
  if st.isOnline then
    match syncToLocal fails rd now st.store with
    | .ok s1 => { st with store := s1 }
    | .error _ => { st with useFirebase := false }
  else st

/-- Embedding of `HybridDataService.syncWhenOnline`: best-effort resync; the catch logs
and changes nothing, and nothing is rethrown. -/
def syncWhenOnline (fails : Bool) (rd : SystemData) (now : Int) (st : FacadeState) :
    Except Unit FacadeState :=
  if st.isOnline && st.useFirebase then
    match syncToLocal fails rd now st.store with
    | .ok s1 => .ok { st with store := s1 }
    | .error _ => .ok st
  else .ok st

/-- Events that reach the facade singleton during one process: startup
initialization, the connectivity listeners, and data operations (which read
the flags and touch only the storage). -/
inductive FEvent where
  | initFb (fails : Bool) (rd : SystemData) (now : Int)
  | goOffline
  | goOnline (syncFails : Bool) (rd : SystemData) (now : Int)
  | operation (f : Bool → Bool → Storage → Storage)

def facadeStep (st : FacadeState) : FEvent → FacadeState
  | .initFb fails rd now => initFirebase fails rd now st
  | .goOffline => { st with isOnline := false }
  | .goOnline syncFails rd now =>
      let st1 := { st with isOnline := true }
      match syncWhenOnline syncFails rd now st1 with
      | .ok st2 => st2
      | .error _ => st1
  | .operation f => { st with store := f st.isOnline st.useFirebase st.store }

def facadeRun (st : FacadeState) (evs : List FEvent) : FacadeState :=
  evs.foldl facadeStep st

/-! ### Concrete test fixtures -/

/-- A first-run storage: no snapshot, no credential map. -/
def freshStorage : Storage := { data := none, passwords := [], lastSync := none }

def testEnv : Env := { now := 0, rand := "r0", userAgent := "TestAgent" }

/-- A remote environment that is offline, so every facade call serves from
the local store. -/
def offlineEnv : RemoteEnv :=
  { online := false, fb := true, getUserR := .err, addUserR := .err,
    sessionR := .err, notifR := .err }

/-! ### Basic persistence lemmas -/

namespace DataService

theorem getData_saveData (now : Int) (d : SystemData) (s : Storage) :
    getData now (saveData d s) = d := rfl

theorem saveData_passwords (d : SystemData) (s : Storage) :
    (saveData d s).passwords = s.passwords := rfl

theorem setUserPassword_getData (e p : String) (now : Int) (s : Storage) :
    getData now (setUserPassword e p s) = getData now s := rfl

theorem addUser_getData (u : User) (now : Int) (s : Storage) :
    getData now (addUser u now s)
      = { getData now s with users := (getData now s).users ++ [addUserFix u] } := rfl

theorem addUser_passwords (u : User) (now : Int) (s : Storage) :
    (addUser u now s).passwords = s.passwords := rfl

theorem updateUser_getData_sessions (u : User) (now : Int) (s : Storage) :
    (getData now (updateUser u now s)).loginSessions = (getData now s).loginSessions := by
  unfold updateUser
  split <;> rfl

theorem updateUser_passwords (u : User) (now : Int) (s : Storage) :
    (updateUser u now s).passwords = s.passwords := by
  unfold updateUser
  split <;> rfl

theorem createLoginSession_getData (u : User) (env : Env) (s : Storage) :
    getData env.now ((createLoginSession u env s).2)
      = { getData env.now s with
          loginSessions := (getData env.now s).loginSessions ++ [mkSession u env] } := rfl

theorem createLoginSession_passwords (u : User) (env : Env) (s : Storage) :
    ((createLoginSession u env s).2).passwords = s.passwords := rfl

theorem finishLogin_fst (u : User) (env : Env) (s : Storage) :
    (finishLogin u env s).1 = some (loginBump u env.now) := rfl

theorem finishLogin_sessions (u : User) (env : Env) (s : Storage) :
    (getData env.now ((finishLogin u env s).2)).loginSessions
      = (getData env.now s).loginSessions ++ [mkSession (loginBump u env.now) env] := by
  show (getData env.now ((createLoginSession _ env (updateUser _ env.now s)).2)).loginSessions = _
  rw [createLoginSession_getData]
  simp only [updateUser_getData_sessions]

theorem finishLogin_passwords (u : User) (env : Env) (s : Storage) :
    ((finishLogin u env s).2).passwords = s.passwords := by
  show ((createLoginSession _ env (updateUser _ env.now s)).2).passwords = _
  rw [createLoginSession_passwords, updateUser_passwords]

theorem mkSession_isActive (u : User) (env : Env) :
    (mkSession u env).isActive = true := rfl

end DataService

/-! ### Facade write lemmas: each mutating facade operation returns `.ok`
and its final storage is exactly the local-store write. -/

namespace HybridDataService

open DataService

theorem addUser_eq (online fb : Bool) (r : RemoteResult String) (u : User)
    (now : Int) (s : Storage) :
    HybridDataService.addUser online fb r u now s
      = .ok (DataService.addUser { u with id := assignRemoteId online fb r u.id } now s) := by
  cases online <;> cases fb <;> cases r <;> rfl

theorem updateUser_eq (online fb : Bool) (r : RemoteResult Unit) (u : User)
    (now : Int) (s : Storage) :
    HybridDataService.updateUser online fb r u now s
      = .ok (DataService.updateUser u now s) := by
  cases online <;> cases fb <;> cases r <;> rfl

theorem addComponent_eq (online fb : Bool) (r : RemoteResult String) (c : Component)
    (now : Int) (s : Storage) :
    HybridDataService.addComponent online fb r c now s
      = .ok (DataService.addComponent { c with id := assignRemoteId online fb r c.id } now s) := by
  cases online <;> cases fb <;> cases r <;> rfl

theorem updateComponent_eq (online fb : Bool) (r : RemoteResult Unit) (c : Component)
    (now : Int) (s : Storage) :
    HybridDataService.updateComponent online fb r c now s
      = .ok (DataService.updateComponent c now s) := by
  cases online <;> cases fb <;> cases r <;> rfl

theorem addRequest_eq (online fb : Bool) (r : RemoteResult String) (rq : BorrowRequest)
    (now : Int) (s : Storage) :
    HybridDataService.addRequest online fb r rq now s
      = .ok (DataService.addRequest { rq with id := assignRemoteId online fb r rq.id } now s) := by
  cases online <;> cases fb <;> cases r <;> rfl

theorem updateRequest_eq (online fb : Bool) (r : RemoteResult Unit) (rq : BorrowRequest)
    (now : Int) (s : Storage) :
    HybridDataService.updateRequest online fb r rq now s
      = .ok (DataService.updateRequest rq now s) := by
  cases online <;> cases fb <;> cases r <;> rfl

theorem addNotification_eq (online fb : Bool) (r : RemoteResult String) (n : Notification)
    (now : Int) (s : Storage) :
    HybridDataService.addNotification online fb r n now s
      = .ok (DataService.addNotification { n with id := assignRemoteId online fb r n.id } now s) := by
  cases online <;> cases fb <;> cases r <;> rfl

theorem markNotificationAsRead_eq (online fb : Bool) (r : RemoteResult Unit)
    (nid : String) (now : Int) (s : Storage) :
    HybridDataService.markNotificationAsRead online fb r nid now s
      = .ok (DataService.markNotificationAsRead nid now s) := by
  cases online <;> cases fb <;> cases r <;> rfl

theorem createLoginSession_eq (online fb : Bool) (r : RemoteResult String) (u : User)
    (env : Env) (s : Storage) :
    HybridDataService.createLoginSession online fb r u env s
      = .ok ({ (DataService.createLoginSession u env s).1 with
                 id := assignRemoteId online fb r (DataService.createLoginSession u env s).1.id },
             (DataService.createLoginSession u env s).2) := by
  cases online <;> cases fb <;> cases r <;> rfl

theorem endLoginSession_eq (online fb : Bool) (r : RemoteResult (List LoginSession))
    (updFails : Bool) (uid : String) (now : Int) (s : Storage) :
    HybridDataService.endLoginSession online fb r updFails uid now s
      = .ok (DataService.endLoginSession uid now s) := by
  cases online <;> cases fb <;> cases r <;> cases updFails <;>
    first
    | rfl
    | (rename_i l
       cases h : (l.filter (fun t => t.userId == uid && t.isActive)).isEmpty <;>
         simp only [HybridDataService.endLoginSession, h] <;> rfl)

end HybridDataService

/-- C1: For every mutating facade operation (addUser, updateUser,
addComponent, updateComponent, addRequest, updateRequest, addNotification,
markNotificationAsRead, createLoginSession, endLoginSession) and for every
remote outcome (success or thrown failure), by the time the call returns
the corresponding Local Store write has been applied (for the create
operations, with the remote id assigned when the remote create succeeded),
and no remote failure propagates as an exception past the facade: every
call returns `.ok` of exactly the local write. -/
theorem c1_facade_writes_durable_and_exceptionless :
    (∀ online fb r u now s, HybridDataService.addUser online fb r u now s
      = .ok (DataService.addUser { u with id := HybridDataService.assignRemoteId online fb r u.id } now s))
  ∧ (∀ online fb r u now s, HybridDataService.updateUser online fb r u now s
      = .ok (DataService.updateUser u now s))
  ∧ (∀ online fb r c now s, HybridDataService.addComponent online fb r c now s
      = .ok (DataService.addComponent { c with id := HybridDataService.assignRemoteId online fb r c.id } now s))
  ∧ (∀ online fb r c now s, HybridDataService.updateComponent online fb r c now s
      = .ok (DataService.updateComponent c now s))
  ∧ (∀ online fb r rq now s, HybridDataService.addRequest online fb r rq now s
      = .ok (DataService.addRequest { rq with id := HybridDataService.assignRemoteId online fb r rq.id } now s))
  ∧ (∀ online fb r rq now s, HybridDataService.updateRequest online fb r rq now s
      = .ok (DataService.updateRequest rq now s))
  ∧ (∀ online fb r n now s, HybridDataService.addNotification online fb r n now s
      = .ok (DataService.addNotification { n with id := HybridDataService.assignRemoteId online fb r n.id } now s))
  ∧ (∀ online fb r nid now s, HybridDataService.markNotificationAsRead online fb r nid now s
      = .ok (DataService.markNotificationAsRead nid now s))
  ∧ (∀ online fb r u env s, HybridDataService.createLoginSession online fb r u env s
      = .ok ({ (DataService.createLoginSession u env s).1 with
                 id := HybridDataService.assignRemoteId online fb r (DataService.createLoginSession u env s).1.id },
             (DataService.createLoginSession u env s).2))
  ∧ (∀ online fb r updFails uid now s, HybridDataService.endLoginSession online fb r updFails uid now s
      = .ok (DataService.endLoginSession uid now s)) :=
  ⟨HybridDataService.addUser_eq, HybridDataService.updateUser_eq,
   HybridDataService.addComponent_eq, HybridDataService.updateComponent_eq,
   HybridDataService.addRequest_eq, HybridDataService.updateRequest_eq,
   HybridDataService.addNotification_eq, HybridDataService.markNotificationAsRead_eq,
   HybridDataService.createLoginSession_eq, HybridDataService.endLoginSession_eq⟩

/-- C2: For every facade read operation (getUser, getComponents,
getRequests, getUserRequests, getUserNotifications) attempted while online
with Firebase enabled: a thrown remote read, a `null` remote user, or an
empty remote list falls back to the Local Store's result; a non-null /
non-empty remote result is returned as-is with no merge of local data. -/
theorem c2_read_fallback_semantics :
    (∀ email now s, HybridDataService.getUser true true .err email now s
        = DataService.getUser email now s)
  ∧ (∀ email now s, HybridDataService.getUser true true (.ok none) email now s
        = DataService.getUser email now s)
  ∧ (∀ u email now s, HybridDataService.getUser true true (.ok (some u)) email now s
        = some u)
  ∧ (∀ now s, HybridDataService.getComponents true true .err now s
        = DataService.getComponents now s)
  ∧ (∀ now s, HybridDataService.getComponents true true (.ok []) now s
        = DataService.getComponents now s)
  ∧ (∀ c cs now s, HybridDataService.getComponents true true (.ok (c :: cs)) now s
        = c :: cs)
  ∧ (∀ now s, HybridDataService.getRequests true true .err now s
        = DataService.getRequests now s)
  ∧ (∀ now s, HybridDataService.getRequests true true (.ok []) now s
        = DataService.getRequests now s)
  ∧ (∀ r rs now s, HybridDataService.getRequests true true (.ok (r :: rs)) now s
        = r :: rs)
  ∧ (∀ uid now s, HybridDataService.getUserRequests true true .err uid now s
        = DataService.getUserRequests uid now s)
  ∧ (∀ uid now s, HybridDataService.getUserRequests true true (.ok []) uid now s
        = DataService.getUserRequests uid now s)
  ∧ (∀ r rs uid now s, HybridDataService.getUserRequests true true (.ok (r :: rs)) uid now s
        = r :: rs)
  ∧ (∀ uid now s, HybridDataService.getUserNotifications true true .err uid now s
        = DataService.getUserNotifications uid now s)
  ∧ (∀ uid now s, HybridDataService.getUserNotifications true true (.ok []) uid now s
        = DataService.getUserNotifications uid now s)
  ∧ (∀ n ns uid now s, HybridDataService.getUserNotifications true true (.ok (n :: ns)) uid now s
        = n :: ns) := by
  refine ⟨?_, ?_, ?_, ?_, ?_, ?_, ?_, ?_, ?_, ?_, ?_, ?_, ?_, ?_, ?_⟩ <;> intros <;>
    first
    | rfl
    | simp [HybridDataService.getComponents, HybridDataService.getRequests,
            HybridDataService.getUserRequests, HybridDataService.getUserNotifications]

/-! ### C10: updates of absent ids are no-ops -/

theorem findIdx?_eq_none_of_all {α : Type} (p : α → Bool) (l : List α)
    (h : ∀ x ∈ l, p x = false) : l.findIdx? p = none :=
  List.findIdx?_eq_none_iff.mpr h

/-- C10: For every Local Store snapshot and every entity whose id matches
no stored entity of its type, the local update operations (updateUser,
updateComponent, updateRequest) return without modifying the persisted
snapshot: the storage is returned unchanged and no save is performed. -/
theorem c10_update_of_absent_id_is_noop :
    (∀ (u : User) (now : Int) (s : Storage),
        (∀ v ∈ (DataService.getData now s).users, v.id ≠ u.id) →
        DataService.updateUser u now s = s)
  ∧ (∀ (c : Component) (now : Int) (s : Storage),
        (∀ v ∈ (DataService.getData now s).components, v.id ≠ c.id) →
        DataService.updateComponent c now s = s)
  ∧ (∀ (r : BorrowRequest) (now : Int) (s : Storage),
        (∀ v ∈ (DataService.getData now s).requests, v.id ≠ r.id) →
        DataService.updateRequest r now s = s) := by
  refine ⟨fun u now s h => ?_, fun c now s h => ?_, fun r now s h => ?_⟩
  · have hn : (DataService.getData now s).users.findIdx? (fun v => v.id == u.id) = none :=
      findIdx?_eq_none_of_all _ _ (fun v hv => beq_eq_false_iff_ne.mpr (h v hv))
    unfold DataService.updateUser
    rw [hn]
  · have hn : (DataService.getData now s).components.findIdx? (fun v => v.id == c.id) = none :=
      findIdx?_eq_none_of_all _ _ (fun v hv => beq_eq_false_iff_ne.mpr (h v hv))
    unfold DataService.updateComponent
    rw [hn]
  · have hn : (DataService.getData now s).requests.findIdx? (fun v => v.id == r.id) = none :=
      findIdx?_eq_none_of_all _ _ (fun v hv => beq_eq_false_iff_ne.mpr (h v hv))
    unfold DataService.updateRequest
    rw [hn]

def ghostUser : User :=
  { id := "nobody-1", name := "Nobody", email := "nobody@x.in",
    registeredAt := 0, role := "student", isActive := false }

def ghostComponent : Component :=
  { id := "nocomp-1", name := "None", totalQuantity := 0, availableQuantity := 0,
    category := "c", description := "d" }

def ghostRequest : BorrowRequest :=
  { id := "noreq-1", studentId := "s", componentId := "c", status := "pending",
    dueDate := 0, createdAt := 0 }

theorem c10_noop_updates_witness :
    DataService.updateUser ghostUser 0 freshStorage = freshStorage
  ∧ DataService.updateComponent ghostComponent 0 freshStorage = freshStorage
  ∧ DataService.updateRequest ghostRequest 0 freshStorage = freshStorage :=
  ⟨c10_update_of_absent_id_is_noop.1 ghostUser 0 freshStorage (by decide),
   c10_update_of_absent_id_is_noop.2.1 ghostComponent 0 freshStorage (by decide),
   c10_update_of_absent_id_is_noop.2.2 ghostRequest 0 freshStorage (by decide)⟩

/-! ### C9: the remote-enabled flag is never re-enabled -/

theorem facadeStep_fb_mono (st : FacadeState) (e : FEvent)
    (h : st.useFirebase = false) : (facadeStep st e).useFirebase = false := by
  cases e with
  | initFb fails rd now =>
      simp only [facadeStep, initFirebase, syncToLocal]
      split
      · split <;> simp [h]
      · exact h
  | goOffline => simpa using h
  | goOnline sf rd now =>
      simp only [facadeStep, syncWhenOnline, syncToLocal, h]
      simp [h]
  | operation f => simpa using h

theorem facadeRun_fb_mono (evs : List FEvent) : ∀ st : FacadeState,
    st.useFirebase = false → (facadeRun st evs).useFirebase = false := by
  induction evs with
  | nil => intro st h; exact h
  | cons e rest ih =>
      intro st h
      exact ih (facadeStep st e) (facadeStep_fb_mono st e h)

/-- C9: once `useFirebase` has been set to `false` (by a failed remote
initialization) no subsequent event — connectivity transition, resync or
data operation — ever sets it back to `true`; and the offline-to-online
resync never throws past the facade and never changes `useFirebase` or
connectivity, even when the resync fails. -/
theorem c9_remote_disable_is_permanent :
    (∀ (st : FacadeState) (evs : List FEvent),
        st.useFirebase = false → (facadeRun st evs).useFirebase = false)
  ∧ (∀ (fails : Bool) (rd : SystemData) (now : Int) (st : FacadeState),
        ∃ st1, syncWhenOnline fails rd now st = .ok st1
          ∧ st1.useFirebase = st.useFirebase ∧ st1.isOnline = st.isOnline) := by
  constructor
  · intro st evs h
    exact facadeRun_fb_mono evs st h
  · intro fails rd now st
    unfold syncWhenOnline syncToLocal
    split
    · split
      · exact ⟨_, rfl, rfl, rfl⟩
      · exact ⟨_, rfl, rfl, rfl⟩
    · exact ⟨st, rfl, rfl, rfl⟩

def emptySystemData : SystemData :=
  { users := [], components := [], requests := [], notifications := [], loginSessions := [] }

def disabledFacade : FacadeState :=
  { isOnline := true, useFirebase := false, store := freshStorage }

theorem c9_remote_disable_witness :
    (facadeRun disabledFacade
       [FEvent.goOffline, FEvent.goOnline true emptySystemData 5,
        FEvent.goOnline false emptySystemData 6]).useFirebase = false
  ∧ ∃ st1, syncWhenOnline true emptySystemData 7 disabledFacade = .ok st1
      ∧ st1.useFirebase = disabledFacade.useFirebase
      ∧ st1.isOnline = disabledFacade.isOnline :=
  ⟨c9_remote_disable_is_permanent.1 disabledFacade _ rfl,
   c9_remote_disable_is_permanent.2 true emptySystemData 7 disabledFacade⟩

/-! ### C8: CSV export of login sessions -/

def sessionActive : LoginSession :=
  { id := "s1", userId := "u1", userEmail := "alice@x.in", userName := "Alice",
    userRole := "student", loginTime := 1000, ipAddress := "Unknown",
    userAgent := "UA", deviceInfo := "Desktop", isActive := true }

def sessionClosed : LoginSession :=
  { id := "s2", userId := "u2", userEmail := "bob@x.in", userName := "Bob",
    userRole := "student", loginTime := 2000, logoutTime := some 127000,
    sessionDuration := some 125000, ipAddress := "Unknown",
    userAgent := "UA", deviceInfo := "Desktop", isActive := false }

def csvTestStorage : Storage :=
  { data := some { users := [], components := [], requests := [], notifications := [],
                   loginSessions := [sessionActive, sessionClosed] },
    passwords := [] }

set_option maxRecDepth 8192 in
/-- C8: the export is the newline-join of one header row of the eight fixed
columns followed by one quoted-cell row per stored LoginSession; on a store
holding one active session and one closed session of duration 125000 ms the
output is exactly three lines, with duration column `"Active"` on the
active row and `"2"` (rounded minutes) on the closed row. -/
theorem c8_csv_export_shape :
    DataService.csvHeaders.length = 8
  ∧ (∀ now s, DataService.exportLoginSessionsCSV now s
        = String.intercalate "\n" (DataService.csvLines now s))
  ∧ (∀ now s, (DataService.csvLines now s).length
        = (DataService.getData now s).loginSessions.length + 1)
  ∧ (DataService.csvLines 0 csvTestStorage).length = 3
  ∧ (DataService.csvRow sessionActive)[6]? = some "Active"
  ∧ (DataService.csvRow sessionClosed)[6]? = some "2"
  ∧ DataService.exportLoginSessionsCSV 0 csvTestStorage
      = "\x22Login Time\x22,\x22Logout Time\x22,\x22User Name\x22,\x22User Email\x22,\x22Role\x22,\x22Device Info\x22,\x22Session Duration (minutes)\x22,\x22Status\x22\n\x221000\x22,\x22Active\x22,\x22Alice\x22,\x22alice@x.in\x22,\x22student\x22,\x22Desktop\x22,\x22Active\x22,\x22Active\x22\n\x222000\x22,\x22127000\x22,\x22Bob\x22,\x22bob@x.in\x22,\x22student\x22,\x22Desktop\x22,\x222\x22,\x22Ended\x22" := by
  refine ⟨rfl, fun now s => rfl, fun now s => ?_, rfl, rfl, rfl, rfl⟩
  simp [DataService.csvLines]

/-! ### Authentication lemmas -/

namespace DataService

theorem lookup_pwInsert (m : List (String × String)) (e p : String) :
    List.lookup e (pwInsert m e p) = some p := by
  induction m with
  | nil => simp [pwInsert, List.lookup]
  | cons kv rest ih =>
      obtain ⟨k, v⟩ := kv
      by_cases h : k = e
      · subst h
        simp [pwInsert, List.lookup]
      · have hne : (e == k) = false := beq_eq_false_iff_ne.mpr (fun hh => h hh.symm)
        simp [pwInsert, h, List.lookup, hne, ih]

/-- Every run of `authenticateUser` either fails leaving the storage
untouched, or ends in `finishLogin` on a storage whose persisted sessions
are those of the input storage. -/
theorem authenticateUser_shape (e p : String) (env : Env) (s : Storage) :
    authenticateUser e p env s = (none, s)
  ∨ ∃ u1 s1, authenticateUser e p env s = finishLogin u1 env s1
      ∧ (getData env.now s1).loginSessions = (getData env.now s).loginSessions := by
  simp only [authenticateUser]
  split
  · split
    · left; rfl
    · split
      · right; exact ⟨_, s, rfl, rfl⟩
      · right; exact ⟨_, _, rfl, rfl⟩
  · split
    · left; rfl
    · split
      · right; exact ⟨_, s, rfl, rfl⟩
      · left; rfl

theorem filter_close_map (uid : String) (now : Int) (l : List LoginSession) :
    ((l.map (closeSession uid now)).filter (fun t => t.isActive)).length
      = (l.filter (fun t => t.isActive && !(t.userId == uid))).length := by
  induction l with
  | nil => rfl
  | cons t rest ih =>
      by_cases h1 : (t.userId == uid) = true <;> by_cases h2 : t.isActive = true <;>
        simp [closeSession, h1, h2, List.filter_cons, ih]

end DataService

open DataService in
/-- C7: after `endLoginSession u` every previously active stored session of
`u` is persisted with `isActive = false`, `logoutTime` set to the call time
and `sessionDuration = logoutTime - loginTime` (exact in the model, where
the call reads the clock once); the subsequent `getSystemStats().onlineUsers`
counts only the remaining active sessions, excluding the closed ones; and
each successful `authenticateUser` call appends exactly one new active
LoginSession to the store. -/
theorem c7_session_lifecycle :
    (∀ (uid : String) (now : Int) (s : Storage) (i : Nat) (t : LoginSession),
        (getData now s).loginSessions[i]? = some t →
        t.userId = uid → t.isActive = true →
        (getData now (endLoginSession uid now s)).loginSessions[i]?
          = some { t with logoutTime := some now
                          isActive := false
                          sessionDuration := some (now - t.loginTime) })
  ∧ (∀ (uid : String) (now : Int) (s : Storage),
        (getSystemStats now (endLoginSession uid now s)).onlineUsers
          = ((getData now s).loginSessions.filter
              (fun t => t.isActive && !(t.userId == uid))).length)
  ∧ (∀ (e p : String) (env : Env) (s : Storage) (u : User),
        (authenticateUser e p env s).1 = some u →
        ∃ t : LoginSession, t.isActive = true
          ∧ (getData env.now (authenticateUser e p env s).2).loginSessions
              = (getData env.now s).loginSessions ++ [t]) := by
  refine ⟨?_, ?_, ?_⟩
  · intro uid now s i t ht huid hact
    show ((getData now s).loginSessions.map (closeSession uid now))[i]? = _
    rw [List.getElem?_map, ht]
    subst huid
    simp [closeSession, hact]
  · intro uid now s
    exact filter_close_map uid now (getData now s).loginSessions
  · intro e p env s u h
    rcases authenticateUser_shape e p env s with hfail | ⟨u1, s1, heq, hsess⟩
    · rw [hfail] at h
      exact Option.noConfusion h
    · rw [heq]
      exact ⟨mkSession (loginBump u1 env.now) env, mkSession_isActive _ env,
             by rw [finishLogin_sessions, hsess]⟩

def wSession : LoginSession :=
  { id := "t1", userId := "u1", userEmail := "alice@x.in", userName := "Alice",
    userRole := "student", loginTime := 100, ipAddress := "Unknown",
    userAgent := "UA", deviceInfo := "Desktop", isActive := true }

def wStorage : Storage :=
  { data := some { users := [], components := [], requests := [], notifications := [],
                   loginSessions := [wSession] },
    passwords := [] }

theorem c7_session_lifecycle_witness :
    (DataService.getData 400 wStorage).loginSessions[0]? = some wSession
  ∧ wSession.userId = "u1" ∧ wSession.isActive = true
  ∧ (DataService.getData 400 (DataService.endLoginSession "u1" 400 wStorage)).loginSessions[0]?
      = some { wSession with logoutTime := some 400
                             isActive := false
                             sessionDuration := some (400 - wSession.loginTime) }
  ∧ (DataService.getSystemStats 400 (DataService.endLoginSession "u1" 400 wStorage)).onlineUsers
      = ((DataService.getData 400 wStorage).loginSessions.filter
          (fun t => t.isActive && !(t.userId == "u1"))).length :=
  ⟨by decide, rfl, rfl,
   c7_session_lifecycle.1 "u1" 400 wStorage 0 wSession (by decide) rfl rfl,
   c7_session_lifecycle.2.1 "u1" 400 wStorage⟩

/-! ### C4 / C5: admin bootstrap authentication -/

open DataService in
/-- C4 (amended): in every state with no stored credential for the
administrative email, `authenticateUser` with the default password
succeeds; the default credential is persisted to the credential map only
when no User record for the admin email exists either — when the admin
User record is present (as on a first run, where the default dataset
contains it) the credential map is left unchanged. -/
theorem c4_admin_bootstrap_amended (env : Env) (s : Storage)
    (hlk : List.lookup "admin@issacasimov.in" (getUserPasswords s) = none) :
    ((authenticateUser "admin@issacasimov.in" "ralab" env s).1.isSome = true)
  ∧ (getUser "admin@issacasimov.in" env.now s = none →
      verifyPassword "admin@issacasimov.in" "ralab"
        ((authenticateUser "admin@issacasimov.in" "ralab" env s).2) = true)
  ∧ (∀ u0, getUser "admin@issacasimov.in" env.now s = some u0 →
      ((authenticateUser "admin@issacasimov.in" "ralab" env s).2).passwords
        = s.passwords) := by
  have hred : authenticateUser "admin@issacasimov.in" "ralab" env s
      = match getUser "admin@issacasimov.in" env.now s with
        | some u => finishLogin u env s
        | none =>
            finishLogin (addUserFix (mkAdminUser env.now)) env
              (setUserPassword "admin@issacasimov.in" "ralab"
                (addUser (mkAdminUser env.now) env.now s)) := by
    unfold authenticateUser
    rw [hlk]
    rfl
  cases hu : getUser "admin@issacasimov.in" env.now s with
  | none =>
      refine ⟨?_, fun _ => ?_, fun u0 h0 => Option.noConfusion h0⟩
      · rw [hred, hu]
        rfl
      · rw [hred, hu]
        simp [verifyPassword, getUserPasswords, finishLogin_passwords,
              setUserPassword, addUser_passwords, lookup_pwInsert]
  | some u0 =>
      refine ⟨?_, fun h0 => Option.noConfusion h0, fun u1 _ => ?_⟩
      · rw [hred, hu]
        rfl
      · rw [hred, hu]
        exact finishLogin_passwords u0 env s

open DataService in
/-- C4 counterexample: on a fresh store (no credential map, no snapshot)
the default dataset already contains the admin User record, so
`authenticateUser` succeeds but never writes the default credential: the
stored map alone still rejects the default password afterwards. -/
theorem c4_admin_bootstrap_counterexample :
    List.lookup "admin@issacasimov.in" (getUserPasswords freshStorage) = none
  ∧ ((authenticateUser "admin@issacasimov.in" "ralab" testEnv freshStorage).1.isSome = true)
  ∧ verifyPassword "admin@issacasimov.in" "ralab"
      ((authenticateUser "admin@issacasimov.in" "ralab" testEnv freshStorage).2) = false := by
  decide

theorem c4_admin_bootstrap_witness :
    List.lookup "admin@issacasimov.in" (DataService.getUserPasswords freshStorage) = none
  ∧ ((DataService.authenticateUser "admin@issacasimov.in" "ralab" testEnv freshStorage).1.isSome
      = true) :=
  ⟨by decide, (c4_admin_bootstrap_amended testEnv freshStorage (by decide)).1⟩

open DataService in
/-- C5 (amended): on a first run with no persisted credential map,
`authenticateUser("admin@issacasimov.in", "ralab")` returns the admin User;
and for every state whose stored admin credential is a password `p` that is
neither `"ralab"` nor the empty string, authenticating with `"ralab"`
returns `null` and leaves the storage unchanged.  (When `p = ""` the JS
`||` treats the stored value as falsy and the default password still
succeeds, hence the non-empty proviso.) -/
theorem c5_admin_default_password :
    ((authenticateUser "admin@issacasimov.in" "ralab" testEnv freshStorage).1.map
        (fun u => (u.email, u.role, u.isActive))
      = some ("admin@issacasimov.in", "admin", true))
  ∧ (∀ (p : String) (env : Env) (s : Storage), p ≠ "ralab" → p ≠ "" →
      List.lookup "admin@issacasimov.in" (getUserPasswords s) = some p →
      authenticateUser "admin@issacasimov.in" "ralab" env s = (none, s)) := by
  constructor
  · decide
  · intro p env s h1 h2 hlk
    have hb : ("ralab" != p) = true := bne_iff_ne.mpr (Ne.symm h1)
    simp [authenticateUser, hlk, jsOrString, h2, hb]

def changedPwStorage : Storage :=
  { data := none, passwords := [("admin@issacasimov.in", "newpw")], lastSync := none }

theorem c5_admin_default_password_witness :
    ("newpw" ≠ "ralab") ∧ ("newpw" ≠ "")
  ∧ List.lookup "admin@issacasimov.in" (DataService.getUserPasswords changedPwStorage)
      = some "newpw"
  ∧ DataService.authenticateUser "admin@issacasimov.in" "ralab" testEnv changedPwStorage
      = (none, changedPwStorage) :=
  ⟨by decide, by decide, by decide,
   c5_admin_default_password.2 "newpw" testEnv changedPwStorage
     (by decide) (by decide) (by decide)⟩

def emptyPwStorage : Storage :=
  { data := none, passwords := [("admin@issacasimov.in", "")], lastSync := none }

open DataService in
/-- C5 counterexample: with the stored admin credential changed to the
empty string (a password different from `"ralab"`), authenticating with
the old default `"ralab"` still succeeds, because the JS `||` fallback
treats the empty stored string as absent. -/
theorem c5_admin_default_password_counterexample :
    ("" ≠ "ralab")
  ∧ List.lookup "admin@issacasimov.in" (getUserPasswords emptyPwStorage) = some ""
  ∧ ((authenticateUser "admin@issacasimov.in" "ralab" testEnv emptyPwStorage).1.isSome
      = true) := by
  decide

/-! ### C3 / C6: registration -/

theorem bind_ok_eq {α β : Type} (a : α) (f : α → Except Unit β) :
    (Except.ok a : Except Unit α) >>= f = f a := rfl

/-- When the facade-level duplicate check reports no user, the local store
has no user with that email either. -/
theorem hGetUser_none (online fb : Bool) (r : RemoteResult (Option User))
    (email : String) (now : Int) (s : Storage)
    (h : HybridDataService.getUser online fb r email now s = none) :
    DataService.getUser email now s = none := by
  cases online <;> cases fb <;>
    first
    | exact h
    | (cases r with
       | err => exact h
       | ok a =>
           cases a with
           | none => exact h
           | some u => exact Option.noConfusion h)

open DataService in
/-- C3 (amended): a registration of an email with no existing user returns
`true`, and the User record persisted to the Local Store has
`role = "student"` but `loginCount = 0` and `isActive = false`: the local
`addUser` resets the constructed record's `loginCount = 1` and
`isActive = true` in place before persisting it. -/
theorem c3_registration_record_amended (renv : RemoteEnv) (env : Env)
    (rd : RegisterData) (s : Storage)
    (hge : HybridDataService.getUser renv.online renv.fb renv.getUserR rd.email env.now s
             = none) :
    (register renv env rd s).1 = true
  ∧ ∃ u : User,
      (getData env.now (register renv env rd s).2).users.find?
          (fun v => v.email == rd.email) = some u
      ∧ u.role = "student" ∧ u.loginCount = some 0 ∧ u.isActive = false := by
  have hloc : DataService.getUser rd.email env.now s = none :=
    hGetUser_none _ _ _ _ _ _ hge
  set nu : User :=
    { id := HybridDataService.assignRemoteId renv.online renv.fb renv.addUserR
              ("user-" ++ toString env.now)
      name := rd.name, email := rd.email, rollNo := some rd.rollNumber
      mobile := some rd.mobile, role := "student", registeredAt := env.now
      loginCount := some 1, isActive := true
      lastLoginAt := some env.now } with hnu
  have hreg : register renv env rd s
      = (true,
         DataService.addNotification
           { id := HybridDataService.assignRemoteId renv.online renv.fb renv.notifR
                     ("notif-" ++ toString env.now)
             userId := nu.id
             title := "Welcome to Isaac Asimov Lab!"
             message := "Your account has been created successfully. You can now request components for your robotics projects."
             type := "success", read := false, createdAt := env.now }
           env.now
           (DataService.setUserPassword rd.email rd.password
             ((DataService.createLoginSession nu env
                (DataService.addUser nu env.now s)).2))) := by
    simp only [register, hge, HybridDataService.addUser_eq,
               HybridDataService.createLoginSession_eq,
               HybridDataService.addNotification_eq, bind_ok_eq, hnu]
    rfl
  refine ⟨by rw [hreg], ⟨addUserFix nu, ?_, rfl, rfl, rfl⟩⟩
  rw [hreg]
  show ((getData env.now s).users ++ [addUserFix nu]).find?
      (fun v => v.email == rd.email) = some (addUserFix nu)
  rw [List.find?_append]
  unfold DataService.getUser at hloc
  rw [hloc]
  simp [addUserFix, List.find?, hnu]

def newRegData : RegisterData :=
  { name := "Alice", email := "alice@x.in", rollNumber := "21R01",
    mobile := "999", password := "pw" }

/-- C3 counterexample: a concrete successful registration on a fresh store
persists the new user with `loginCount = 0` and `isActive = false`, not
the `loginCount = 1` / `isActive = true` the claim asserts. -/
theorem c3_registration_record_counterexample :
    (register offlineEnv testEnv newRegData freshStorage).1 = true
  ∧ ((DataService.getData 0 (register offlineEnv testEnv newRegData freshStorage).2).users.find?
       (fun v => v.email == "alice@x.in")).map (fun u => (u.role, u.loginCount, u.isActive))
      = some ("student", some 0, false)
  ∧ ¬ (((DataService.getData 0 (register offlineEnv testEnv newRegData freshStorage).2).users.find?
       (fun v => v.email == "alice@x.in")).map (fun u => (u.loginCount, u.isActive))
      = some (some 1, true)) := by
  decide

theorem c3_registration_record_witness :
    HybridDataService.getUser offlineEnv.online offlineEnv.fb offlineEnv.getUserR
        newRegData.email testEnv.now freshStorage = none
  ∧ (register offlineEnv testEnv newRegData freshStorage).1 = true :=
  ⟨by decide,
   (c3_registration_record_amended offlineEnv testEnv newRegData freshStorage (by decide)).1⟩

open DataService in
/-- C6: registering an email for which a User record already exists returns
`false` and leaves the storage (hence the set of User records) unchanged. -/
theorem c6_duplicate_registration (renv : RemoteEnv) (env : Env)
    (rd : RegisterData) (s : Storage)
    (hex : ∃ u ∈ (getData env.now s).users, u.email = rd.email) :
    register renv env rd s = (false, s) := by
  obtain ⟨u, hu, he⟩ := hex
  have hsome : ∃ w, DataService.getUser rd.email env.now s = some w := by
    cases hfind : (getData env.now s).users.find? (fun v => v.email == rd.email) with
    | none =>
        have hnone := List.find?_eq_none.mp hfind u hu
        simp [he] at hnone
    | some w => exact ⟨w, hfind⟩
  obtain ⟨w, hw⟩ := hsome
  have hhy : ∃ v, HybridDataService.getUser renv.online renv.fb renv.getUserR
      rd.email env.now s = some v := by
    unfold HybridDataService.getUser
    cases hob : renv.online && renv.fb with
    | false => simp only [hob, Bool.false_eq_true, if_false]; exact ⟨w, hw⟩
    | true =>
        simp only [hob, if_true]
        cases hr : renv.getUserR with
        | err => exact ⟨w, hw⟩
        | ok a =>
            cases a with
            | none => exact ⟨w, hw⟩
            | some v => exact ⟨v, rfl⟩
  obtain ⟨v, hv⟩ := hhy
  simp only [register, hv]
  rfl

def dupRegData : RegisterData :=
  { name := "X", email := "admin@issacasimov.in", rollNumber := "1",
    mobile := "2", password := "pw" }

theorem c6_duplicate_registration_witness :
    ((DataService.getData testEnv.now freshStorage).users.find?
        (fun u => u.email == "admin@issacasimov.in")).isSome = true
  ∧ register offlineEnv testEnv dupRegData freshStorage = (false, freshStorage) :=
  ⟨by decide,
   c6_duplicate_registration offlineEnv testEnv dupRegData freshStorage
     ⟨{ id := "admin-1", name := "Administrator", email := "admin@issacasimov.in",
        role := "admin", registeredAt := 0, loginCount := some 0, isActive := false },
      by decide, rfl⟩⟩

end Issac
